import Mathlib

/-!
Shallow embedding of the session-mediation core of src/app.py:
usage tracking (track_usage), rate limiting (check_rate_limit),
conversation windowing and trimming, prompt assembly, response
sanitization, and the /query route pipeline (query_route).

Python strings are modelled as Lean `String` / `List Char`; the session
dict entries usage_today and conversation are modelled as Option-typed
fields of `SessionState`; token counters are `Nat` (the source only
ever adds non-negative provider-reported counts).  The remote provider
is a parameter returning `Except` (success, or the exception caught by
the try/except of the route).
-/

set_option maxRecDepth 40000

namespace Marine

/-- Exchange: one stored conversation entry, mirroring the dict with
keys user, grok and timestamp built at app.py:156-160. -/
structure Exchange where
  user : String
  grok : String
  timestamp : String
deriving DecidableEq

/-- UsageRecord: the usage_today dict of the session (app.py:55-60),
with keys date, requests, prompt_tokens and completion_tokens. -/
structure UsageRecord where
  date : String
  requests : Nat
  prompt_tokens : Nat
  completion_tokens : Nat
deriving DecidableEq

/-- SessionState: the per-session state the route reads and writes —
the conversation and usage_today session keys.  `none` models the key
being absent from the session dict. -/
structure SessionState where
  conversation : Option (List Exchange)
  usage_today : Option UsageRecord
deriving DecidableEq

/-- Embedding of track_usage(prompt_tokens, completion_tokens)
(app.py:52-73).  Here `today` stands for datetime.now().strftime of
%Y-%m-%d.  If the key is absent, a zeroed record dated today is
installed; if the stored record is dated another day it is replaced by
a zeroed record dated today; then the increments are applied. -/
def track_usage (today : String) (usage : Option UsageRecord)
    (prompt_tokens completion_tokens : Nat) : UsageRecord :=
  let base : UsageRecord :=
    match usage with
    | none => ⟨today, 0, 0, 0⟩
    | some u => if u.date ≠ today then ⟨today, 0, 0, 0⟩ else u
  { base with
    requests := base.requests + 1
    prompt_tokens := base.prompt_tokens + prompt_tokens
    completion_tokens := base.completion_tokens + completion_tokens }

/-- Embedding of check_rate_limit() (app.py:75-86).  It reads
session.get(usage_today, empty dict) — `none` models an absent key,
whose lookups with default 0 yield 0.  Note the source compares with
strict `>` and consults no date.  Returns the pair
(can_proceed, error_msg). -/
def check_rate_limit (usage : Option UsageRecord) : Bool × Option String :=
  let requests := match usage with | none => 0 | some u => u.requests
  let completion_tokens := match usage with | none => 0 | some u => u.completion_tokens
  if requests > 50 then
    (false, some "Daily request limit reached (50). Please try again tomorrow.")
  else if completion_tokens > 25000 then
    (false, some "Daily token limit reached. Please try again tomorrow.")
  else
    (true, none)

/-- Embedding of the Python replace of the two-character emphasis
marker by the empty string (app.py:145, first replace): delete
non-overlapping occurrences of two consecutive stars, scanning left to
right. -/
def removeDoubleStar : List Char → List Char
  | [] => []
  | [c] => [c]
  | c₁ :: c₂ :: rest =>
    if c₁ = '*' ∧ c₂ = '*' then removeDoubleStar rest
    else c₁ :: removeDoubleStar (c₂ :: rest)

/-- Embedding of the Python replace of the one-character emphasis
marker by the empty string (app.py:145, second replace): delete every
star character. -/
def removeStar : List Char → List Char
  | [] => []
  | c :: rest => if c = '*' then removeStar rest else c :: removeStar rest

/-- Whitespace as recognised by the Python str.strip() call at
app.py:148: the characters CPython treats as Unicode whitespace
(0x09-0x0d, the file/group/record/unit separators 0x1c-0x1f, space,
next line 0x85, no-break space 0xa0, the Ogham space mark, the
U+2000-series spaces, the line and paragraph separators, the narrow
no-break space, the medium mathematical space and the ideographic
space). -/
def isPySpace (c : Char) : Bool :=
  (0x09 ≤ c.toNat && c.toNat ≤ 0x0d) ||
  (0x1c ≤ c.toNat && c.toNat ≤ 0x1f) ||
  c.toNat = 0x20 || c.toNat = 0x85 || c.toNat = 0xa0 || c.toNat = 0x1680 ||
  (0x2000 ≤ c.toNat && c.toNat ≤ 0x200a) ||
  c.toNat = 0x2028 || c.toNat = 0x2029 || c.toNat = 0x202f ||
  c.toNat = 0x205f || c.toNat = 0x3000

/-- Fallback text substituted for empty output (app.py:149-152). -/
def fallbackMessage : String :=
  "I couldn\x27t generate a detailed response. Let me try a different approach. Could you rephrase your question or provide more specific details about what you\x27re looking for?"

/-- Response cleaning (app.py:143-152): when the content is non-empty,
strip the two emphasis markers; then, when the result is empty or
strips to nothing, substitute the fallback. -/
def clean (raw : String) : String :=
  let content := if raw = "" then raw else String.mk (removeStar (removeDoubleStar raw.data))
  if content = "" ∨ content.data.all isPySpace then fallbackMessage else content

/-- Python slice taking the last `n` elements of a list (all of them
when the list is shorter than `n`). -/
def lastN (n : Nat) (l : List α) : List α :=
  l.drop (l.length - n)

/-- Embedding of the slice of the conversation kept for prompting —
the last 3 exchanges (app.py:121). -/
def recentWindow (log : List Exchange) : List Exchange :=
  lastN 3 log

/-- Embedding of conversation.append followed by reassigning the
session key to the last-10 slice of the list (app.py:156-163). -/
def appendTrim (log : List Exchange) (e : Exchange) : List Exchange :=
  lastN 10 (log ++ [e])

/-- Replay of a sequence of appends against an initially empty
conversation log. -/
def runAppends (es : List Exchange) : List Exchange :=
  es.foldl appendTrim []

/-- Role: chat roles of the messages sent to the provider. -/
inductive Role where
  | system
  | user
  | assistant
deriving DecidableEq

/-- Message: one message dict with keys role and content. -/
structure Message where
  role : Role
  content : String
deriving DecidableEq

/-- Embedding of SYSTEM_PROMPT (app.py:8-31). -/
def SYSTEM_PROMPT : String :=
  "You are GROK, a helpful assistant. Respond briefly and directly:\n\nFor SIMPLE questions (name, greeting, basic info from our conversation):\n- Give a short, direct answer (1 sentence maximum)\n- Don\x27t ask follow-up questions or elaborate\n- Just answer what was asked\n\nFor SERVICE PROVIDER questions (best service, who provides, recommendations):\n- Start directly with specific recommendations\n- Give 2-3 concrete options with names, locations, and contact info\n- Include a short \x27How to verify\x27 section with 3-4 bullet points\n- Total response should be 150-300 words maximum\n\nFor GENERAL questions:\n- Give clear, concise answers\n- Don\x27t over-explain or ask follow-ups unless requested\n\nALWAYS:\n- Be direct and to-the-point\n- Don\x27t ask unnecessary follow-up questions\n- No markdown formatting\n- Answer the question asked, nothing more"

/-- Instruction text prepended to the new query in the final user
message (app.py:127). -/
def answerPreamble : String :=
  "Please provide a comprehensive, detailed answer: "

/-- Embedding of conversation_messages (app.py:117-128): system prompt,
then a user/assistant pair per recent exchange, then the new query
carrying the instruction text. -/
def conversationMessages (recents : List Exchange) (query : String) : List Message :=
  [⟨Role.system, SYSTEM_PROMPT⟩]
    ++ recents.flatMap (fun c => [⟨Role.user, c.user⟩, ⟨Role.assistant, c.grok⟩])
    ++ [⟨Role.user, answerPreamble ++ query⟩]

/-- ProviderResult: what the provider call returns on success —
generated text plus the token-usage figures read at app.py:139-143 and
171-174. -/
structure ProviderResult where
  text : String
  prompt_tokens : Nat
  completion_tokens : Nat
  total_tokens : Nat
deriving DecidableEq

/-- QueryError: the error outcomes of the /query route — HTTP 440, 400,
429 and the 500 produced by the except clause (app.py:100-113,
179-180). -/
inductive QueryError where
  | sessionExpired
  | invalidInput
  | rateLimited (msg : String)
  | providerError (msg : String)
deriving DecidableEq

/-- QuerySuccess: the success payload of the /query route
(app.py:166-177). -/
structure QuerySuccess where
  query : String
  response : String
  prompt_tokens : Nat
  completion_tokens : Nat
  total_tokens : Nat
deriving DecidableEq

/-- Embedding of query_route (app.py:97-180).  Here `today` is
datetime.now().strftime of %Y-%m-%d and `now` is
datetime.now().isoformat(); `queryParam` is the query entry of the JSON
body when present, `none` when the body is missing, not JSON, or lacks
the key; `provider` is the chat-completions call, with `Except.error`
the exception caught at app.py:179.  Returns the session state after
the request together with the response. -/
def query_route (today now : String) (st : SessionState) (queryParam : Option String)
    (provider : List Message → Except String ProviderResult) :
    SessionState × Except QueryError QuerySuccess :=
  match st.conversation with
  | none => (st, Except.error QueryError.sessionExpired)
  | some log =>
    match queryParam with
    | none => (st, Except.error QueryError.invalidInput)
    | some query =>
      match check_rate_limit st.usage_today with
      | (false, error_msg) => (st, Except.error (QueryError.rateLimited (error_msg.getD "")))
      | (true, _) =>
        match provider (conversationMessages (recentWindow log) query) with
        | Except.error e => (st, Except.error (QueryError.providerError e))
        | Except.ok res =>
          let usage := track_usage today st.usage_today res.prompt_tokens res.completion_tokens
          let content := clean res.text
          let conversation := appendTrim log ⟨query, content, now⟩
          ({ conversation := some conversation, usage_today := some usage },
           Except.ok ⟨query, content, res.prompt_tokens, res.completion_tokens, res.total_tokens⟩)

/-! ### Helper lemmas about the star-stripping passes -/

theorem removeStar_eq_filter (l : List Char) :
    removeStar l = l.filter (fun c => c ≠ '*') := by
  induction l with
  | nil => rfl
  | cons c rest ih =>
    by_cases h : c = '*'
    · simp [removeStar, h, ih, List.filter_cons]
    · simp [removeStar, h, ih, List.filter_cons]

theorem filter_removeDoubleStar :
    ∀ l : List Char, (removeDoubleStar l).filter (fun c => c ≠ '*') = l.filter (fun c => c ≠ '*')
  | [] => rfl
  | [_] => rfl
  | c₁ :: c₂ :: rest => by
    rw [removeDoubleStar]
    by_cases h : c₁ = '*' ∧ c₂ = '*'
    · obtain ⟨h₁, h₂⟩ := h
      subst h₁; subst h₂
      rw [if_pos ⟨rfl, rfl⟩, filter_removeDoubleStar rest]
      simp [List.filter_cons]
    · rw [if_neg h, List.filter_cons, List.filter_cons,
        filter_removeDoubleStar (c₂ :: rest), List.filter_cons]

theorem removeDoubleStar_eq_self_of_no_star :
    ∀ l : List Char, (∀ c ∈ l, c ≠ '*') → removeDoubleStar l = l
  | [], _ => rfl
  | [_], _ => rfl
  | c₁ :: c₂ :: rest, h => by
    rw [removeDoubleStar, if_neg (by simp at h; tauto)]
    rw [removeDoubleStar_eq_self_of_no_star (c₂ :: rest) (fun c hc => h c (List.mem_cons_of_mem _ hc))]

theorem removeStar_removeDoubleStar_eq_filter (l : List Char) :
    removeStar (removeDoubleStar l) = l.filter (fun c => c ≠ '*') := by
  rw [removeStar_eq_filter, filter_removeDoubleStar]

theorem removeDoubleStar_removeStar_eq_filter (l : List Char) :
    removeDoubleStar (removeStar l) = l.filter (fun c => c ≠ '*') := by
  rw [removeStar_eq_filter,
    removeDoubleStar_eq_self_of_no_star _ (fun c hc => by
      have := List.of_mem_filter hc
      simpa using this)]

/-! ### Helper lemmas about last-slice windowing -/

theorem lastN_eq_reverse_take (n : Nat) (l : List α) :
    lastN n l = (l.reverse.take n).reverse := by
  rw [lastN, List.reverse_take]
  simp

theorem lastN_append_lastN (n : Nat) (l m : List α) :
    lastN n (lastN n l ++ m) = lastN n (l ++ m) := by
  rw [lastN_eq_reverse_take n l, lastN_eq_reverse_take, lastN_eq_reverse_take,
    List.reverse_append, List.reverse_append, List.reverse_reverse,
    List.take_append_eq_append_take, List.take_append_eq_append_take]
  congr 2
  simp only [List.length_reverse, List.take_take]
  have hmin : (n - m.length) ⊓ n = n - m.length := by omega
  rw [hmin]

theorem length_lastN (n : Nat) (l : List α) :
    (lastN n l).length = min n l.length := by
  rw [lastN, List.length_drop]
  omega

theorem foldl_appendTrim (es : List Exchange) :
    ∀ l : List Exchange, es.foldl appendTrim (lastN 10 l) = lastN 10 (l ++ es) := by
  induction es with
  | nil => intro l; simp
  | cons e es ih =>
    intro l
    have h1 : appendTrim (lastN 10 l) e = lastN 10 (l ++ [e]) := by
      rw [appendTrim, lastN_append_lastN]
    rw [List.foldl_cons, h1, ih (l ++ [e])]
    simp

/-! ### Claim theorems -/

/-- C10: for every string, the two-pass replacement of the sanitizer —
deleting all occurrences of the double-star marker and then all
occurrences of the single star — yields the same string as a single
pass deleting every star character, and running the two passes in the
opposite order yields that same string as well. -/
theorem star_pass_order_irrelevant (s : String) :
    String.mk (removeStar (removeDoubleStar s.data)) = String.mk (s.data.filter (fun c => c ≠ '*')) ∧
    String.mk (removeDoubleStar (removeStar s.data)) = String.mk (s.data.filter (fun c => c ≠ '*')) :=
  ⟨congrArg String.mk (removeStar_removeDoubleStar_eq_filter s.data),
   congrArg String.mk (removeDoubleStar_removeStar_eq_filter s.data)⟩

/-- C7: the sanitizer never leaves a star character in its output; when
the stripped text is empty or all-whitespace (in particular when the
raw text is empty) it returns the fixed fallback message — whitespace
in the full Python sense, non-ASCII spaces and separator controls
included; and on the concrete inputs of the spec it behaves as
stated. It is a total function, so it never errors. -/
theorem response_sanitizer_correct :
    (∀ raw : String, (clean raw).data.all (fun c => c ≠ '*')) ∧
    (∀ raw : String, (removeStar (removeDoubleStar raw.data)).all isPySpace = true →
      clean raw = fallbackMessage) ∧
    clean "**Hello** *world*" = "Hello world" ∧
    clean "   " = fallbackMessage ∧
    clean "" = fallbackMessage ∧
    clean "\xa0" = fallbackMessage ∧
    clean "\x1c" = fallbackMessage := by
  refine ⟨?_, ?_, by decide, by decide, by decide, by decide, by decide⟩
  · intro raw
    by_cases hempty : raw = ""
    · subst hempty
      decide
    · rw [clean]
      simp only [if_neg hempty]
      by_cases hws : String.mk (removeStar (removeDoubleStar raw.data)) = "" ∨
          (String.mk (removeStar (removeDoubleStar raw.data))).data.all isPySpace
      · rw [if_pos hws]
        decide
      · rw [if_neg hws]
        simp only [List.all_eq_true, removeStar_removeDoubleStar_eq_filter]
        intro c hc
        simpa using List.of_mem_filter hc
  · intro raw hws
    by_cases hempty : raw = ""
    · subst hempty
      decide
    · rw [clean]
      simp only [if_neg hempty]
      rw [if_pos (Or.inr hws)]

/-- C7 witness: a concrete all-whitespace-after-stripping input is sent
to the fallback message. -/
theorem response_sanitizer_correct_witness :
    clean " \t*" = fallbackMessage :=
  response_sanitizer_correct.2.1 " \t*" (by decide)

/-- C6: recording usage on a record whose date is not today replaces it
with a fresh zeroed record dated today and then applies the increment,
so the result is exactly requests = 1 and tokens = the increments,
independent of the stale counts. (The embedding is a total function,
so recording always succeeds.) -/
theorem track_usage_resets_on_stale_date (today : String) (u : UsageRecord)
    (pt ct : Nat) (h : u.date ≠ today) :
    track_usage today (some u) pt ct = ⟨today, 1, pt, ct⟩ := by
  simp [track_usage, h]

/-- C6 witness: a record dated 2026-10-11 with stale counts, recorded
on 2026-10-12, yields exactly the increment. -/
theorem track_usage_resets_on_stale_date_witness :
    track_usage "2026-10-12" (some ⟨"2026-10-11", 40, 100, 200⟩) 10 5 =
      ⟨"2026-10-12", 1, 10, 5⟩ :=
  track_usage_resets_on_stale_date "2026-10-12" ⟨"2026-10-11", 40, 100, 200⟩ 10 5 (by decide)

/-- C1 (evidence of the code bug): the source compares with strict
`>`, so the check still allows at exactly 50 requests and at exactly
25000 completion tokens — where the claim, the comments of the source
(max 50 requests per day, max 25k tokens per day) and its own error
message say it must deny — and denies only from 51 requests / 25001
tokens. It does allow at 49 and 24999 as the claim states. -/
theorem rate_limit_allows_at_exact_limit :
    check_rate_limit (some ⟨"2026-10-12", 50, 0, 0⟩) = (true, none) ∧
    check_rate_limit (some ⟨"2026-10-12", 0, 0, 25000⟩) = (true, none) ∧
    check_rate_limit (some ⟨"2026-10-12", 49, 0, 0⟩) = (true, none) ∧
    check_rate_limit (some ⟨"2026-10-12", 0, 0, 24999⟩) = (true, none) ∧
    (check_rate_limit (some ⟨"2026-10-12", 51, 0, 0⟩)).1 = false ∧
    (check_rate_limit (some ⟨"2026-10-12", 0, 0, 25001⟩)).1 = false := by
  exact ⟨by decide, by decide, by decide, by decide, by decide, by decide⟩

/-- C2 (evidence of the code bug): the rate-limit check of the source
consults no date at all — it is the same function for any stored date,
and it denies on a record whose counters were accumulated on a
previous day, although its own error message promises the limit resets
the next day (the reset lives only in track_usage, which is
unreachable once the check denies). -/
theorem stale_record_denies_request :
    (∀ d d' requests pt ct, check_rate_limit (some ⟨d, requests, pt, ct⟩) =
      check_rate_limit (some ⟨d', requests, pt, ct⟩)) ∧
    ("2026-10-11" : String) ≠ "2026-10-12" ∧
    check_rate_limit (some ⟨"2026-10-11", 51, 0, 0⟩) =
      (false, some "Daily request limit reached (50). Please try again tomorrow.") :=
  ⟨fun _ _ _ _ _ => rfl, by decide, by decide⟩

/-- C9: the window read for prompting returns exactly the last
min(3, length) exchanges of the log, in original order (it is the
suffix that completes the untouched front of the log), and it is a
total function, so it never errors. -/
theorem recent_window_correct (log : List Exchange) :
    (recentWindow log).length = min 3 log.length ∧
    log.take (log.length - 3) ++ recentWindow log = log := by
  constructor
  · rw [recentWindow, length_lastN]
  · rw [recentWindow, lastN, List.take_append_drop]

/-- C5: starting from the empty log, after any sequence of appends the
conversation log holds at most 10 exchanges, and its content is
exactly the last min(10, n) appended exchanges in insertion order —
the suffix completing the dropped front of the append sequence. -/
theorem conversation_log_bounded (es : List Exchange) :
    (runAppends es).length ≤ 10 ∧
    runAppends es = lastN 10 es ∧
    (runAppends es).length = min 10 es.length ∧
    es.take (es.length - 10) ++ runAppends es = es := by
  have hrun : runAppends es = lastN 10 es := by
    have h0 : (lastN 10 ([] : List Exchange)) = [] := by rfl
    have := foldl_appendTrim es []
    rw [h0] at this
    rw [runAppends, this]
    simp
  refine ⟨?_, hrun, ?_, ?_⟩
  · rw [hrun, length_lastN]; omega
  · rw [hrun, length_lastN]
  · rw [hrun, lastN, List.take_append_drop]

/-! ### Helper lemmas for prompt assembly indexing -/

theorem length_flatMap_pair (recents : List Exchange) :
    (recents.flatMap (fun c =>
      [Message.mk Role.user c.user, Message.mk Role.assistant c.grok])).length =
      2 * recents.length := by
  induction recents with
  | nil => rfl
  | cons r rs ih =>
    rw [List.flatMap_cons, List.length_append, ih]
    simp only [List.length_cons, List.length_nil, List.length_cons]
    omega

theorem flatMap_pair_getElem :
    ∀ (recents : List Exchange) (i : Nat) (c : Exchange), recents[i]? = some c →
      (recents.flatMap (fun c =>
        [Message.mk Role.user c.user, Message.mk Role.assistant c.grok]))[2 * i]? =
          some ⟨Role.user, c.user⟩ ∧
      (recents.flatMap (fun c =>
        [Message.mk Role.user c.user, Message.mk Role.assistant c.grok]))[2 * i + 1]? =
          some ⟨Role.assistant, c.grok⟩
  | [], i, c, h => by simp at h
  | r :: rs, 0, c, h => by
    simp only [List.getElem?_cons_zero, Option.some.injEq] at h
    subst h
    simp [List.flatMap_cons]
  | r :: rs, i + 1, c, h => by
    simp only [List.getElem?_cons_succ] at h
    have ih := flatMap_pair_getElem rs i c h
    have h2 : 2 * (i + 1) = 2 * i + 1 + 1 := by ring
    have h3 : 2 * (i + 1) + 1 = 2 * i + 1 + 1 + 1 := by ring
    constructor
    · rw [h2]
      simp only [List.flatMap_cons, List.cons_append, List.getElem?_cons_succ]
      exact ih.1
    · rw [h3]
      simp only [List.flatMap_cons, List.cons_append, List.getElem?_cons_succ]
      exact ih.2

theorem conversationMessages_eq_cons (recents : List Exchange) (query : String) :
    conversationMessages recents query =
      Message.mk Role.system SYSTEM_PROMPT ::
        (recents.flatMap (fun c =>
          [Message.mk Role.user c.user, Message.mk Role.assistant c.grok])
          ++ [Message.mk Role.user (answerPreamble ++ query)]) := rfl

/-- C8: the assembled message sequence has exactly 2 times the number
of recent exchanges plus 2 entries; the system message comes first;
the entries at positions 2i+1 and 2i+2 are the user query and the
assistant response of the i-th recent exchange; the final entry is a
user message carrying the instruction text concatenated with the new
query; and the exchange the pipeline stores afterwards keeps the
unprefixed original query text. -/
theorem prompt_assembly_correct (recents : List Exchange) (query : String) :
    (conversationMessages recents query).length = 2 * recents.length + 2 ∧
    (conversationMessages recents query)[0]? = some ⟨Role.system, SYSTEM_PROMPT⟩ ∧
    (∀ i c, recents[i]? = some c →
      (conversationMessages recents query)[2 * i + 1]? = some ⟨Role.user, c.user⟩ ∧
      (conversationMessages recents query)[2 * i + 2]? = some ⟨Role.assistant, c.grok⟩) ∧
    (conversationMessages recents query)[2 * recents.length + 1]? =
      some ⟨Role.user, answerPreamble ++ query⟩ ∧
    (∀ today now log usage res,
      (check_rate_limit usage).1 = true →
      (query_route today now ⟨some log, usage⟩ (some query)
          (fun _ => Except.ok res)).1.conversation =
        some (appendTrim log ⟨query, clean res.text, now⟩)) := by
  refine ⟨?_, by rw [conversationMessages_eq_cons]; exact List.getElem?_cons_zero, ?_, ?_, ?_⟩
  · rw [conversationMessages_eq_cons, List.length_cons, List.length_append,
      length_flatMap_pair, List.length_cons, List.length_nil]
  · intro i c h
    have hi : i < recents.length := by
      by_contra hge
      push_neg at hge
      rw [List.getElem?_eq_none hge] at h
      exact Option.noConfusion h
    have key := flatMap_pair_getElem recents i c h
    have hlen := length_flatMap_pair recents
    constructor
    · rw [conversationMessages_eq_cons, List.getElem?_cons_succ, List.getElem?_append,
        if_pos (by omega)]
      exact key.1
    · have h2 : 2 * i + 2 = 2 * i + 1 + 1 := by ring
      rw [conversationMessages_eq_cons, h2, List.getElem?_cons_succ, List.getElem?_append,
        if_pos (by omega)]
      exact key.2
  · have hlen := length_flatMap_pair recents
    rw [conversationMessages_eq_cons, List.getElem?_cons_succ, List.getElem?_append,
      if_neg (by omega), hlen, Nat.sub_self]
    rfl
  · intro today now log usage res hrate
    rcases hcr : check_rate_limit usage with ⟨b, m⟩
    rw [hcr] at hrate
    have hb : b = true := hrate
    subst hb
    simp [query_route, hcr]

/-- C8 witness: on a one-exchange history the second and third
messages are the stored user query and assistant response, and a
concrete successful pipeline run stores the unprefixed query. -/
theorem prompt_assembly_correct_witness :
    ((conversationMessages [⟨"hi", "hello", "t0"⟩] "next")[1]? =
        some ⟨Role.user, "hi"⟩ ∧
      (conversationMessages [⟨"hi", "hello", "t0"⟩] "next")[2]? =
        some ⟨Role.assistant, "hello"⟩) ∧
    (query_route "2026-10-12" "T1" ⟨some [], some ⟨"2026-10-12", 0, 0, 0⟩⟩ (some "next")
        (fun _ => Except.ok ⟨"ok", 10, 1, 11⟩)).1.conversation =
      some (appendTrim [] ⟨"next", clean "ok", "T1"⟩) :=
  ⟨(prompt_assembly_correct [⟨"hi", "hello", "t0"⟩] "next").2.2.1 0
      ⟨"hi", "hello", "t0"⟩ rfl,
   (prompt_assembly_correct [] "next").2.2.2.2 "2026-10-12" "T1" [] (some ⟨"2026-10-12", 0, 0, 0⟩)
      ⟨"ok", 10, 1, 11⟩ (by decide)⟩

/-- C3 counterexample: a call whose query text is the empty string is
not rejected as invalid input — it reaches the provider, records
usage, and appends to the conversation log. -/
theorem empty_query_not_rejected :
    query_route "2026-10-12" "T1" ⟨some [], some ⟨"2026-10-12", 0, 0, 0⟩⟩ (some "")
        (fun _ => Except.ok ⟨"4", 10, 1, 11⟩) =
      (⟨some [⟨"", "4", "T1"⟩], some ⟨"2026-10-12", 1, 10, 1⟩⟩,
       Except.ok ⟨"", "4", 10, 1, 11⟩) := by
  rfl

/-- C3 amended: a call whose query parameter is missing from the
request body fails with InvalidInput before the provider is invoked
and without any mutation of the usage record or the conversation log;
an empty query string, however, is not rejected and proceeds through
the pipeline. -/
theorem missing_query_short_circuits
    (today now : String) (log : List Exchange) (usage : Option UsageRecord)
    (provider : List Message → Except String ProviderResult) :
    query_route today now ⟨some log, usage⟩ none provider =
      (⟨some log, usage⟩, Except.error QueryError.invalidInput) := rfl

/-- C4: when the provider call fails, the route returns ProviderError
and the session state — conversation log and usage record — is exactly
what it was before the call: nothing is recorded. -/
theorem provider_failure_leaves_state_unchanged
    (today now : String) (log : List Exchange) (usage : Option UsageRecord)
    (query e : String)
    (provider : List Message → Except String ProviderResult)
    (hrate : (check_rate_limit usage).1 = true)
    (hprov : provider (conversationMessages (recentWindow log) query) = Except.error e) :
    query_route today now ⟨some log, usage⟩ (some query) provider =
      (⟨some log, usage⟩, Except.error (QueryError.providerError e)) := by
  rcases hcr : check_rate_limit usage with ⟨b, m⟩
  rw [hcr] at hrate
  have hb : b = true := hrate
  subst hb
  simp [query_route, hcr, hprov]

/-- C4 witness: a concrete active session under quota, whose provider
call fails, keeps its state and surfaces the provider error. -/
theorem provider_failure_leaves_state_unchanged_witness :
    query_route "2026-10-12" "T1" ⟨some [], some ⟨"2026-10-12", 3, 7, 9⟩⟩ (some "hi")
        (fun _ => Except.error "boom") =
      (⟨some [], some ⟨"2026-10-12", 3, 7, 9⟩⟩,
       Except.error (QueryError.providerError "boom")) :=
  provider_failure_leaves_state_unchanged "2026-10-12" "T1" [] (some ⟨"2026-10-12", 3, 7, 9⟩)
    "hi" "boom" (fun _ => Except.error "boom") (by decide) rfl

end Marine
